import Mathlib

/-!
Shallow embedding of the pokemon_game repository (src/game/pokemon.py,
src/game/trainer.py, src/game/game_engine.py) and verification of the
frozen specification claims.

Conventions of the embedding:
* Python integers are modelled as `ℤ`; Python `/` on nonnegative integer
  operands followed by `int(...)` truncation is modelled as `ℤ` division
  (for the value ranges occurring in the program the float rounding of
  CPython agrees with exact division, so the embedding is faithful there).
* Real-valued (float) computations are modelled over `ℚ`.
* Calls to `random.random()` / `random.uniform(...)` are modelled by an
  explicit tape `rng : List ℚ` of pre-drawn values, consumed head first;
  `random.choice` over the opponent's moves is modelled by an index
  parameter.
* Mutation is modelled by state passing: each mutating Python method
  becomes a function returning the updated value (paired with the Python
  return value when the method returns one).
-/

namespace PokemonGame

/-- The 18 Pokemon types of `PokemonType` in pokemon.py. -/
inductive PokemonType where
  | normal | fire | water | electric | grass | ice | fighting | poison
  | ground | flying | psychic | bug | rock | ghost | dragon | dark
  | steel | fairy
deriving Repr, DecidableEq

/-- `Move` dataclass of pokemon.py (the description string is omitted;
no code read by the claims consults it). -/
structure Move where
  name : String
  type : PokemonType
  power : ℤ
  accuracy : ℤ
  pp : ℤ
  maxPp : ℤ
deriving Repr, DecidableEq

/-- `Move.use_move`: decrement PP when positive, report success. -/
def useMove (m : Move) : Move × Bool :=
  if m.pp > 0 then ({ m with pp := m.pp - 1 }, true) else (m, false)

/-- `Stats` dataclass of pokemon.py (base stats). -/
structure Stats where
  hp : ℤ
  attack : ℤ
  defense : ℤ
  specialAttack : ℤ
  specialDefense : ℤ
  speed : ℤ
deriving Repr, DecidableEq

/-- `Stats.calculate_stat` with the default IV of 15:
`int(((2 * base_stat + iv) * level) / 100) + 5`. -/
def calculateStat (baseStat level : ℤ) : ℤ :=
  (2 * baseStat + 15) * level / 100 + 5

/-- `Pokemon.calculate_exp_to_next_level`: `int(1.2 * (level ** 2))`,
which equals `⌊6·level²/5⌋` for the levels the game produces. -/
def calculateExpToNextLevel (level : ℤ) : ℤ :=
  6 * level ^ 2 / 5

/-- The `Pokemon` object state: the attributes of pokemon.py's
constructor that the verified operations read or write. -/
structure Pokemon where
  species : String
  level : ℤ
  experience : ℤ
  experienceToNextLevel : ℤ
  baseStats : Stats
  maxHp : ℤ
  currentHp : ℤ
  attack : ℤ
  defense : ℤ
  specialAttack : ℤ
  specialDefense : ℤ
  speed : ℤ
  types : List PokemonType
  moves : List Move
  statusCondition : Option String
  statusTurns : ℤ
  /-- the `"level"` entry of the species' `evolution` data, when present -/
  evolutionLevel : Option ℤ
deriving Repr, DecidableEq

/-- `Pokemon.level_up`: cap at 100; increment level, zero the
experience, recompute threshold and all derived stats, shifting
`current_hp` by the change in `max_hp`; return whether a level-based
evolution is now available. -/
def levelUp (p : Pokemon) : Pokemon × Bool :=
  if p.level ≥ 100 then (p, false)
  else
    let newLevel := p.level + 1
    let newMaxHp := calculateStat p.baseStats.hp newLevel
    let p' : Pokemon :=
      { p with
        level := newLevel
        experience := 0
        experienceToNextLevel := calculateExpToNextLevel newLevel
        maxHp := newMaxHp
        currentHp := p.currentHp + (newMaxHp - p.maxHp)
        attack := calculateStat p.baseStats.attack newLevel
        defense := calculateStat p.baseStats.defense newLevel
        specialAttack := calculateStat p.baseStats.specialAttack newLevel
        specialDefense := calculateStat p.baseStats.specialDefense newLevel
        speed := calculateStat p.baseStats.speed newLevel }
    match p.evolutionLevel with
    | some el => (p', decide (el ≤ newLevel))
    | none => (p', false)

/-- `Pokemon.gain_experience`: add the amount; a single threshold test
dispatches to `level_up` (whose boolean is passed through). -/
def gainExperience (p : Pokemon) (amount : ℤ) : Pokemon × Bool :=
  let p' := { p with experience := p.experience + amount }
  if p'.experience ≥ p'.experienceToNextLevel then levelUp p'
  else (p', false)

/-- `Pokemon.heal`: full heal without an amount, otherwise clamp at
`max_hp`; clear the status condition exactly when fully healed. -/
def heal (p : Pokemon) (amount : Option ℤ) : Pokemon :=
  let p' :=
    match amount with
    | none => { p with currentHp := p.maxHp }
    | some a => { p with currentHp := min p.maxHp (p.currentHp + a) }
  if p'.currentHp = p'.maxHp then
    { p' with statusCondition := none, statusTurns := 0 }
  else p'

/-- `Pokemon.take_damage`: clamp at zero, report whether the resulting
HP is exactly zero. -/
def takeDamage (p : Pokemon) (damage : ℤ) : Pokemon × Bool :=
  let p' := { p with currentHp := max 0 (p.currentHp - damage) }
  (p', decide (p'.currentHp = 0))

/-- `Pokemon.is_fainted`: `current_hp <= 0`. -/
def isFainted (p : Pokemon) : Bool :=
  decide (p.currentHp ≤ 0)

/-- The `TYPE_EFFECTIVENESS` chart of pokemon.py: only the fire, water,
electric and grass attack rows exist; every missing pair is 1. -/
def typeEffectiveness (attack target : PokemonType) : ℚ :=
  match attack, target with
  | .fire, .grass => 2 | .fire, .ice => 2 | .fire, .bug => 2
  | .fire, .steel => 2 | .fire, .fire => 1/2 | .fire, .water => 1/2
  | .fire, .rock => 1/2 | .fire, .dragon => 1/2
  | .water, .fire => 2 | .water, .ground => 2 | .water, .rock => 2
  | .water, .water => 1/2 | .water, .grass => 1/2 | .water, .dragon => 1/2
  | .electric, .water => 2 | .electric, .flying => 2
  | .electric, .electric => 1/2 | .electric, .grass => 1/2
  | .electric, .dragon => 1/2 | .electric, .ground => 0
  | .grass, .water => 2 | .grass, .ground => 2 | .grass, .rock => 2
  | .grass, .fire => 1/2 | .grass, .grass => 1/2 | .grass, .poison => 1/2
  | .grass, .flying => 1/2 | .grass, .bug => 1/2 | .grass, .dragon => 1/2
  | .grass, .steel => 1/2
  | _, _ => 1

/-- `Pokemon.get_type_effectiveness`: product over the target's types. -/
def typeEffectivenessAll (attack : PokemonType) (targets : List PokemonType) : ℚ :=
  targets.foldl (fun acc t => acc * typeEffectiveness attack t) 1

/-- Python `int(...)` truncation toward zero on a real value. -/
def pyInt (q : ℚ) : ℤ :=
  if 0 ≤ q then ⌊q⌋ else ⌈q⌉

/-- `Pokemon.calculate_damage`. A zero-power move returns 0 before the
random factor is drawn; otherwise the damage formula is evaluated and
one uniform draw is consumed from the tape as the 0.85-1.0 factor. -/
def calculateDamage (attacker : Pokemon) (mv : Move) (target : Pokemon)
    (rng : List ℚ) : ℤ × List ℚ :=
  if mv.power = 0 then (0, rng)
  else
    let levelFactor : ℚ := 2 * (attacker.level : ℚ) / 5 + 2
    let physical := mv.type = PokemonType.normal ∨ mv.type = PokemonType.fighting
    let attackStat : ℚ :=
      if physical then (attacker.attack : ℚ) else (attacker.specialAttack : ℚ)
    let defenseStat : ℚ :=
      if physical then (target.defense : ℚ) else (target.specialDefense : ℚ)
    let base : ℚ := levelFactor * (mv.power : ℚ) * attackStat / defenseStat / 50 + 2
    let withEff : ℚ := base * typeEffectivenessAll mv.type target.types
    let withStab : ℚ :=
      if mv.type ∈ attacker.types then withEff * (3/2) else withEff
    (pyInt (withStab * rng.headD 1), rng.tail)

/-- `Pokemon.get_catch_rate`: the species table with default 100. -/
def getCatchRate (p : Pokemon) : ℤ :=
  if p.species = "Bulbasaur" ∨ p.species = "Charmander" ∨ p.species = "Squirtle"
    then 45
  else if p.species = "Pikachu" then 190
  else if p.species = "Rattata" ∨ p.species = "Caterpie" ∨ p.species = "Pidgey"
    then 255
  else 100

/-- Species base stats from `get_species_data` (default species: all 50). -/
def speciesBaseStats (species : String) : Stats :=
  if species = "Bulbasaur" then ⟨45, 49, 49, 65, 65, 45⟩
  else if species = "Charmander" then ⟨39, 52, 43, 60, 50, 65⟩
  else if species = "Squirtle" then ⟨44, 48, 65, 50, 64, 43⟩
  else if species = "Pikachu" then ⟨35, 55, 40, 50, 50, 90⟩
  else if species = "Rattata" then ⟨30, 56, 35, 25, 35, 72⟩
  else if species = "Caterpie" then ⟨45, 30, 35, 20, 20, 45⟩
  else if species = "Pidgey" then ⟨40, 45, 40, 35, 35, 56⟩
  else ⟨50, 50, 50, 50, 50, 50⟩

/-- Species types from `get_species_data` (default: normal). -/
def speciesTypes (species : String) : List PokemonType :=
  if species = "Bulbasaur" then [.grass, .poison]
  else if species = "Charmander" then [.fire]
  else if species = "Squirtle" then [.water]
  else if species = "Pikachu" then [.electric]
  else if species = "Rattata" then [.normal]
  else if species = "Caterpie" then [.bug]
  else if species = "Pidgey" then [.normal, .flying]
  else [.normal]

/-- The `"level"` entry of the species' evolution data; Pikachu evolves
by item only, so it has none, as do unknown species. -/
def speciesEvolutionLevel (species : String) : Option ℤ :=
  if species = "Bulbasaur" ∨ species = "Charmander" ∨ species = "Squirtle"
    then some 16
  else if species = "Rattata" then some 20
  else if species = "Caterpie" then some 7
  else if species = "Pidgey" then some 18
  else none

/-- Move database of `get_initial_moves` (name, type, power, accuracy, pp). -/
def moveTackle : Move := ⟨"Tackle", .normal, 40, 100, 35, 35⟩

def moveGrowl : Move := ⟨"Growl", .normal, 0, 100, 40, 40⟩

def moveVineWhip : Move := ⟨"Vine Whip", .grass, 45, 100, 25, 25⟩

def moveEmber : Move := ⟨"Ember", .fire, 40, 100, 25, 25⟩

def moveWaterGun : Move := ⟨"Water Gun", .water, 40, 100, 25, 25⟩

def moveThunderShock : Move := ⟨"Thunder Shock", .electric, 40, 100, 30, 30⟩

def moveQuickAttack : Move := ⟨"Quick Attack", .normal, 40, 100, 30, 30⟩

def moveStringShot : Move := ⟨"String Shot", .bug, 0, 95, 40, 40⟩

def moveGust : Move := ⟨"Gust", .flying, 40, 100, 35, 35⟩

/-- `get_initial_moves` per species (default: Tackle only). -/
def speciesMoves (species : String) : List Move :=
  if species = "Bulbasaur" then [moveTackle, moveGrowl, moveVineWhip]
  else if species = "Charmander" then [moveTackle, moveGrowl, moveEmber]
  else if species = "Squirtle" then [moveTackle, moveWaterGun]
  else if species = "Pikachu" then [moveThunderShock, moveQuickAttack]
  else if species = "Rattata" then [moveTackle, moveQuickAttack]
  else if species = "Caterpie" then [moveTackle, moveStringShot]
  else if species = "Pidgey" then [moveTackle, moveGust]
  else [moveTackle]

/-- The `Pokemon.__init__` constructor for a species at a level: fresh
experience, full HP, stats derived through `calculate_stat`. -/
def mkPokemon (species : String) (level : ℤ) : Pokemon :=
  let bs := speciesBaseStats species
  { species := species
    level := level
    experience := 0
    experienceToNextLevel := calculateExpToNextLevel level
    baseStats := bs
    maxHp := calculateStat bs.hp level
    currentHp := calculateStat bs.hp level
    attack := calculateStat bs.attack level
    defense := calculateStat bs.defense level
    specialAttack := calculateStat bs.specialAttack level
    specialDefense := calculateStat bs.specialDefense level
    speed := calculateStat bs.speed level
    types := speciesTypes species
    moves := speciesMoves species
    statusCondition := none
    statusTurns := 0
    evolutionLevel := speciesEvolutionLevel species }

/-! ### trainer.py: inventory and trainer operations -/

/-- The inventory `items` dict, as an insertion-ordered association
list from item name to quantity (CPython dicts preserve insertion
order, which `attempt_catch` relies on to pick the first pokeball). -/
abbrev Inventory := List (String × ℤ)

/-- `self.items.get(name, 0)`. -/
def invCount (inv : Inventory) (name : String) : ℤ :=
  match inv.find? (fun e => e.1 == name) with
  | some e => e.2
  | none => 0

/-- `name in self.items`. -/
def hasKey (inv : Inventory) (name : String) : Bool :=
  inv.any (fun e => e.1 == name)

/-- `Inventory.remove_item`: decrement when the key exists with enough
quantity, deleting the key when the count reaches zero. -/
def removeItem (inv : Inventory) (name : String) (qty : ℤ) : Inventory × Bool :=
  if hasKey inv name && decide (qty ≤ invCount inv name) then
    let inv' := inv.map (fun e => if e.1 = name then (e.1, e.2 - qty) else e)
    let inv'' :=
      if invCount inv' name = 0 then inv'.filter (fun e => !(e.1 == name))
      else inv'
    (inv'', true)
  else (inv, false)

/-- `Inventory.has_item` at the default quantity 1. -/
def hasItem (inv : Inventory) (name : String) : Bool :=
  decide (1 ≤ invCount inv name)

/-- The `type` field of `get_item_database` entries. -/
def itemTypeOf (name : String) : Option String :=
  if name = "Pokeball" ∨ name = "Great Ball" ∨ name = "Ultra Ball" ∨
      name = "Master Ball" then some "pokeball"
  else if name = "Potion" ∨ name = "Super Potion" ∨ name = "Hyper Potion" ∨
      name = "Max Potion" ∨ name = "Revive" then some "healing"
  else if name = "Thunder Stone" ∨ name = "Fire Stone" ∨ name = "Water Stone" ∨
      name = "Leaf Stone" then some "evolution"
  else if name = "Rare Candy" then some "misc"
  else if name = "Bicycle" ∨ name = "Pokedex" then some "key"
  else none

/-- The `heal_amount` field of `get_item_database` entries. -/
def itemHealAmount (name : String) : Option ℤ :=
  if name = "Potion" then some 20
  else if name = "Super Potion" then some 50
  else if name = "Hyper Potion" then some 200
  else if name = "Max Potion" then some 999
  else none

/-- The `revive` flag of `get_item_database` entries. -/
def itemIsRevive (name : String) : Bool :=
  name == "Revive"

/-- `item_database.get(name, {}).get("catch_rate", 1.0)`. -/
def ballCatchRate (name : String) : ℚ :=
  if name = "Pokeball" then 1
  else if name = "Great Ball" then 3/2
  else if name = "Ultra Ball" then 2
  else if name = "Master Ball" then 255
  else 1

/-- `Inventory.get_items_by_type`: the entries whose database type
matches, in inventory order. -/
def itemsByType (inv : Inventory) (ty : String) : Inventory :=
  inv.filter (fun e => itemTypeOf e.1 == some ty)

/-- The trainer state touched by the verified operations: team, box,
inventory, pokedex sets and the caught/used counters of `stats`. -/
structure Trainer where
  pokemonTeam : List Pokemon
  pokemonBox : List Pokemon
  maxTeamSize : ℤ
  inventory : Inventory
  pokedexSeen : List String
  pokedexCaught : List String
  statsPokemonCaught : ℤ
  statsItemsUsed : ℤ
deriving Repr, DecidableEq

/-- Python `set.add` on a set modelled as a duplicate-free list. -/
def setAdd (s : List String) (x : String) : List String :=
  if s.contains x then s else s ++ [x]

/-- `Trainer.add_pokemon`: record pokedex and catch stats, then append
to the team when below `max_team_size`, otherwise to the box (returning
whether it joined the team). -/
def addPokemon (t : Trainer) (p : Pokemon) (caught : Bool) : Trainer × Bool :=
  let t1 :=
    if caught then
      { t with
        statsPokemonCaught := t.statsPokemonCaught + 1
        pokedexCaught := setAdd t.pokedexCaught p.species }
    else t
  let t2 := { t1 with pokedexSeen := setAdd t1.pokedexSeen p.species }
  if (t2.pokemonTeam.length : ℤ) < t2.maxTeamSize then
    ({ t2 with pokemonTeam := t2.pokemonTeam ++ [p] }, true)
  else
    ({ t2 with pokemonBox := t2.pokemonBox ++ [p] }, false)

/-- `Trainer.has_usable_pokemon`. -/
def hasUsablePokemon (team : List Pokemon) : Bool :=
  team.any (fun p => !(isFainted p))

/-- `Trainer.use_item` on a present target: healing items heal (999
means full heal, `Revive` restores half `max_hp` when fainted) and a
`Rare Candy` feeds the current threshold into `gain_experience`; all of
these consume the item and bump `items_used`; other items fail. -/
def useItem (inv : Inventory) (itemName : String) (target : Pokemon)
    (itemsUsed : ℤ) : Inventory × Pokemon × ℤ × Bool :=
  if !(hasItem inv itemName) then (inv, target, itemsUsed, false)
  else
    match itemTypeOf itemName with
    | none => (inv, target, itemsUsed, false)
    | some ty =>
      if ty = "healing" then
        let target' :=
          match itemHealAmount itemName with
          | some 999 => heal target none
          | some a => heal target (some a)
          | none =>
            if itemIsRevive itemName && isFainted target then
              { target with currentHp := target.maxHp / 2 }
            else target
        ((removeItem inv itemName 1).1, target', itemsUsed + 1, true)
      else if ty = "misc" ∧ itemName = "Rare Candy" then
        let target' := (gainExperience target target.experienceToNextLevel).1
        ((removeItem inv itemName 1).1, target', itemsUsed + 1, true)
      else (inv, target, itemsUsed, false)

/-- The status bonus of `Trainer.catch_pokemon`: 2 for sleep/freeze,
1.5 for paralyze/burn/poison, otherwise 1. -/
def statusModifierOf (status : Option String) : ℚ :=
  if status = some "sleep" ∨ status = some "freeze" then 2
  else if status = some "paralyze" ∨ status = some "burn" ∨
      status = some "poison" then 3/2
  else 1

/-- The capture probability computed by `Trainer.catch_pokemon`:
`min(1, base_rate * ball * hp_factor * status / 255)` with
`hp_factor = (3·max_hp − 2·current_hp) / (3·max_hp)`. -/
def catchProbability (wild : Pokemon) (ballType : String) : ℚ :=
  let ballModifier := ballCatchRate ballType
  let catchRate : ℚ := (getCatchRate wild : ℚ)
  let hpModifier : ℚ :=
    (3 * (wild.maxHp : ℚ) - 2 * (wild.currentHp : ℚ)) / (3 * (wild.maxHp : ℚ))
  let statusModifier := statusModifierOf wild.statusCondition
  min 1 ((catchRate * ballModifier * hpModifier * statusModifier) / 255)

/-- `Trainer.catch_pokemon` with the uniform draw `r`: fail without the
ball; otherwise consume one ball unconditionally, then on `r` below the
probability heal the wild creature and add it via `add_pokemon`. -/
def catchPokemon (t : Trainer) (wild : Pokemon) (ballType : String) (r : ℚ) :
    Trainer × Bool :=
  if !(hasItem t.inventory ballType) then (t, false)
  else
    let prob := catchProbability wild ballType
    let t1 := { t with inventory := (removeItem t.inventory ballType 1).1 }
    if r < prob then
      let wild' := heal wild none
      ((addPokemon t1 wild' true).1, true)
    else (t1, false)

/-! ### game_engine.py: the battle loop, damage flow and capture flow -/

/-- `GameEngine.calculate_exp_gain`:
`int(opponent.level * 10 * max(1, opponent.level - player.level + 5) / 10)`. -/
def calculateExpGain (player opponent : Pokemon) : ℤ :=
  let baseExp := opponent.level * 10
  let levelDiff := max 1 (opponent.level - player.level + 5)
  baseExp * levelDiff / 10

/-- `GameEngine.calculate_catch_rate`:
`min(0.9, 0.3 + (1 − hp/max_hp)·0.4 + max(0.1, 1 − level/100)·0.2)`. -/
def calculateCatchRate (p : Pokemon) : ℚ :=
  let hpFactor : ℚ := 1 - (p.currentHp : ℚ) / (p.maxHp : ℚ)
  let levelFactor : ℚ := max (1/10) (1 - (p.level : ℚ) / 100)
  min (9/10) (3/10 + hpFactor * (2/5) + levelFactor * (1/5))

/-- What the Fight branch of `battle_loop` reports for the attempt. -/
inductive FightMessage where
  | dealtDamage (amount : ℤ)
  /-- the `"The attack missed!"` message -/
  | missed
  /-- the `"... has no PP left!"` message followed by `continue` -/
  | noPP
  /-- falsy or out-of-range move choice, `continue` -/
  | invalidChoice
deriving Repr, DecidableEq

/-- The player Fight action of `battle_loop` (lines 315-349): guard the
1-based move choice, spend PP via `use_move` (a failure re-prompts with
no other change), compute damage, apply it through `take_damage`, and
report a hit exactly when the damage is positive. -/
def fightAction (p opponent : Pokemon) (moveChoice : Option ℕ) (rng : List ℚ) :
    Pokemon × Pokemon × FightMessage × List ℚ :=
  match moveChoice with
  | none => (p, opponent, .invalidChoice, rng)
  | some i =>
    if i = 0 ∨ p.moves.length < i then (p, opponent, .invalidChoice, rng)
    else
      match p.moves[i - 1]? with
      | none => (p, opponent, .invalidChoice, rng)
      | some mv =>
        let (mv', ok) := useMove mv
        if ok then
          let p' := { p with moves := p.moves.set (i - 1) mv' }
          let (damage, rng') := calculateDamage p' mv' opponent rng
          let (opp', _) := takeDamage opponent damage
          if damage > 0 then (p', opp', .dealtDamage damage, rng')
          else (p', opp', .missed, rng')
        else (p, opponent, .noPP, rng)

/-- Modelled from the spec for comparison with `fightAction` (claim C1):
the caller consults `move.accuracy` before invoking damage, a uniform
draw below `accuracy/100` meaning hit; a miss deals no damage. -/
def specFightAction (p opponent : Pokemon) (moveChoice : Option ℕ)
    (rng : List ℚ) : Pokemon × Pokemon × FightMessage × List ℚ :=
  match moveChoice with
  | none => (p, opponent, .invalidChoice, rng)
  | some i =>
    if i = 0 ∨ p.moves.length < i then (p, opponent, .invalidChoice, rng)
    else
      match p.moves[i - 1]? with
      | none => (p, opponent, .invalidChoice, rng)
      | some mv =>
        let (mv', ok) := useMove mv
        if ok then
          let p' := { p with moves := p.moves.set (i - 1) mv' }
          if rng.headD 1 < (mv'.accuracy : ℚ) / 100 then
            let (damage, rng') := calculateDamage p' mv' opponent rng.tail
            let (opp', _) := takeDamage opponent damage
            if damage > 0 then (p', opp', .dealtDamage damage, rng')
            else (p', opp', .missed, rng')
          else (p', opponent, .missed, rng.tail)
        else (p, opponent, .noPP, rng)

/-- `GameEngine.opponent_turn` with the chosen move index: compute the
damage (no PP cost, no accuracy consultation) and apply it; with no
moves nothing happens. -/
def opponentTurn (opponent player : Pokemon) (moveIdx : ℕ) (rng : List ℚ) :
    Pokemon × List ℚ :=
  match opponent.moves[moveIdx]? with
  | none => (player, rng)
  | some mv =>
    let (damage, rng') := calculateDamage opponent mv player rng
    ((takeDamage player damage).1, rng')

/-- The battle-loop state: the trainer data the loop touches, the local
`player_pokemon` reference (as an index into the team), the opponent
and the turn counter. -/
structure BattleState where
  team : List Pokemon
  activeIdx : ℕ
  opponent : Pokemon
  isWild : Bool
  inventory : Inventory
  itemsUsed : ℤ
  battleTurn : ℤ
deriving Repr, DecidableEq

/-- One resolved player input for a battle-loop iteration: the battle
menu choice together with the sub-choice its branch requests. -/
inductive BattleChoice where
  | fight (moveChoice : Option ℕ)
  | items (itemChoice : Option String)
  | switch (pokemonChoice : Option ℕ)
  | flee
  /-- `get_battle_choice` returned `None`; the loop turns it into Run -/
  | noChoice
deriving Repr, DecidableEq

/-- How one `battle_loop` iteration ended. -/
inductive BattleOutcome where
  | cont (st : BattleState)
  | victory (st : BattleState)
  | defeat (st : BattleState)
  | ran (st : BattleState)
deriving Repr, DecidableEq

/-- The victory block of `battle_loop` (lines 402-416): award
`calculate_exp_gain` through `gain_experience`, then call `level_up()`
unconditionally (its boolean only selects the level-up display). -/
def victoryBlock (st : BattleState) : BattleState :=
  match st.team[st.activeIdx]? with
  | none => st
  | some p =>
    let expGained := calculateExpGain p st.opponent
    let p1 := (gainExperience p expGained).1
    let p2 := (levelUp p1).1
    { st with team := st.team.set st.activeIdx p2 }

/-- The tail of a `battle_loop` iteration after the player acted
(lines 402-446): victory check, opponent turn, faint handling with the
forced switch prompt. -/
def afterPlayerAction (st : BattleState) (faintSwitch : Option ℕ)
    (oppMoveIdx : ℕ) (rng : List ℚ) : BattleOutcome × List ℚ :=
  if isFainted st.opponent then (.victory (victoryBlock st), rng)
  else
    match st.team[st.activeIdx]? with
    | none => (.cont st, rng)
    | some p =>
      let (p', rng') := opponentTurn st.opponent p oppMoveIdx rng
      let st1 := { st with team := st.team.set st.activeIdx p' }
      if isFainted p' then
        if hasUsablePokemon st1.team then
          match faintSwitch with
          | none => (.defeat st1, rng')
          | some i =>
            if i = 0 ∨ st1.team.length < i then (.defeat st1, rng')
            else
              match st1.team[i - 1]? with
              | none => (.defeat st1, rng')
              | some np =>
                if isFainted np then (.defeat st1, rng')
                else (.cont { st1 with activeIdx := i - 1 }, rng')
        else (.defeat st1, rng')
      else (.cont st1, rng')

/-- The Fight branch of a `battle_loop` iteration (lines 315-349): an
invalid choice or an exhausted move re-prompts; otherwise the fight
action runs and control falls through to the shared tail. -/
def fightBranch (st : BattleState) (moveChoice : Option ℕ)
    (faintSwitch : Option ℕ) (oppMoveIdx : ℕ) (rng : List ℚ) :
    BattleOutcome × List ℚ :=
  match st.team[st.activeIdx]? with
  | none => (.cont st, rng)
  | some p =>
    let (p', opp', msg, rng') := fightAction p st.opponent moveChoice rng
    match msg with
    | .invalidChoice => (.cont st, rng)
    | .noPP => (.cont st, rng)
    | _ =>
      let st1 := { st with team := st.team.set st.activeIdx p', opponent := opp' }
      afterPlayerAction st1 faintSwitch oppMoveIdx rng'

/-- The Items branch (lines 351-368): no healing items, a cancelled
menu or a failed `use_item` re-prompt; a successful use falls through
to the shared tail. -/
def itemsBranch (st : BattleState) (itemChoice : Option String)
    (faintSwitch : Option ℕ) (oppMoveIdx : ℕ) (rng : List ℚ) :
    BattleOutcome × List ℚ :=
  match itemsByType st.inventory "healing" with
  | [] => (.cont st, rng)
  | _ :: _ =>
    match itemChoice with
    | none => (.cont st, rng)
    | some itemName =>
      match st.team[st.activeIdx]? with
      | none => (.cont st, rng)
      | some p =>
        let (inv', p', used', ok) := useItem st.inventory itemName p st.itemsUsed
        if ok then
          let st1 := { st with
            inventory := inv'
            team := st.team.set st.activeIdx p'
            itemsUsed := used' }
          afterPlayerAction st1 faintSwitch oppMoveIdx rng
        else (.cont st, rng)

/-- The Pokemon branch (lines 370-388): needs another team member, a
valid index and a standing, different target; otherwise re-prompt. A
successful switch falls through to the shared tail. -/
def switchBranch (st : BattleState) (pokemonChoice : Option ℕ)
    (faintSwitch : Option ℕ) (oppMoveIdx : ℕ) (rng : List ℚ) :
    BattleOutcome × List ℚ :=
  if st.team.length ≤ 1 then (.cont st, rng)
  else
    match pokemonChoice with
    | none => (.cont st, rng)
    | some i =>
      if i = 0 ∨ st.team.length < i then (.cont st, rng)
      else
        match st.team[i - 1]? with
        | none => (.cont st, rng)
        | some np =>
          if i - 1 ≠ st.activeIdx ∧ ¬(isFainted np = true) then
            afterPlayerAction { st with activeIdx := i - 1 }
              faintSwitch oppMoveIdx rng
          else (.cont st, rng)

/-- The Run branch (lines 390-400): from a wild battle an 80% draw
escapes, a failed draw falls through to the opponent's turn; from a
trainer battle the attempt re-prompts. -/
def fleeBranch (st : BattleState) (faintSwitch : Option ℕ)
    (oppMoveIdx : ℕ) (rng : List ℚ) : BattleOutcome × List ℚ :=
  if st.isWild then
    if rng.headD 1 < 4/5 then (.ran st, rng.tail)
    else afterPlayerAction st faintSwitch oppMoveIdx rng.tail
  else (.cont st, rng)

/-- One iteration of `battle_loop` (lines 296-458), entered with both
sides standing: bump the turn counter, then dispatch the battle-menu
choice (a `None` choice is turned into Run). -/
def battleIteration (st₀ : BattleState) (choice : BattleChoice)
    (faintSwitch : Option ℕ) (oppMoveIdx : ℕ) (rng : List ℚ) :
    BattleOutcome × List ℚ :=
  let st := { st₀ with battleTurn := st₀.battleTurn + 1 }
  match choice with
  | .fight moveChoice => fightBranch st moveChoice faintSwitch oppMoveIdx rng
  | .items itemChoice => itemsBranch st itemChoice faintSwitch oppMoveIdx rng
  | .switch pokemonChoice => switchBranch st pokemonChoice faintSwitch oppMoveIdx rng
  | .flee => fleeBranch st faintSwitch oppMoveIdx rng
  | .noChoice => fleeBranch st faintSwitch oppMoveIdx rng

/-- `GameEngine.attempt_catch` after a victory over a wild creature
(`agree` is the yes/no answer, `r1` the engine's own draw, `r2` the
draw inside `Trainer.catch_pokemon`): gate on `calculate_catch_rate`;
on gate success delegate to `catch_pokemon` (which consumes the ball),
on gate failure consume the ball directly. -/
def engineAttemptCatch (t : Trainer) (wild : Pokemon) (agree : Bool)
    (r1 r2 : ℚ) : Trainer × Bool :=
  if !agree then (t, false)
  else
    match itemsByType t.inventory "pokeball" with
    | [] => (t, false)
    | (ballName, _) :: _ =>
      if r1 < calculateCatchRate wild then
        let (t', success) := catchPokemon t wild ballName r2
        if success then
          ({ t' with statsPokemonCaught := t'.statsPokemonCaught + 1 }, true)
        else (t', false)
      else
        ({ t with inventory := (removeItem t.inventory ballName 1).1 }, false)

/-! ### Helper lemmas -/

lemma calculateStat_mono (b l : ℤ) (hb : 0 ≤ b) :
    calculateStat b l ≤ calculateStat b (l + 1) := by
  unfold calculateStat
  have hnum : (2 * b + 15) * l ≤ (2 * b + 15) * (l + 1) := by nlinarith
  have := Int.ediv_le_ediv (by norm_num : (0:ℤ) < 100) hnum
  omega

lemma hasKey_of_invCount_pos (inv : Inventory) (name : String)
    (h : invCount inv name ≠ 0) : hasKey inv name = true := by
  induction inv with
  | nil => simp [invCount] at h
  | cons e rest ih =>
    by_cases he : e.1 == name
    · simp [hasKey, he]
    · have he' : (e.1 == name) = false := by simpa using he
      simp only [invCount, List.find?] at h ⊢
      rw [he'] at h
      simp only [hasKey, List.any_cons, he', Bool.false_or]
      exact ih h

lemma invCount_map_sub (inv : Inventory) (name : String) (q : ℤ)
    (h : hasKey inv name = true) :
    invCount (inv.map (fun e => if e.1 = name then (e.1, e.2 - q) else e)) name
      = invCount inv name - q := by
  induction inv with
  | nil => simp [hasKey] at h
  | cons e rest ih =>
    by_cases he : e.1 = name
    · simp [invCount, List.find?, he]
    · have he' : (e.1 == name) = false := by simp [he]
      simp only [List.map_cons, invCount, List.find?, he, if_false, he']
      simp only [hasKey, List.any_cons, he', Bool.false_or] at h
      exact ih h

lemma invCount_filter_ne (inv : Inventory) (name : String) :
    invCount (inv.filter (fun e => !(e.1 == name))) name = 0 := by
  induction inv with
  | nil => simp [invCount]
  | cons e rest ih =>
    by_cases he : e.1 == name
    · simpa [List.filter, he] using ih
    · simpa [List.filter, he, invCount, List.find?] using ih

/-- Removing `q ≤ count` of a present item decrements its count by
exactly `q` (whether or not the entry is deleted at zero). -/
lemma invCount_removeItem (inv : Inventory) (name : String) (q : ℤ)
    (h1 : invCount inv name ≠ 0) (hq : q ≤ invCount inv name) :
    invCount (removeItem inv name q).1 name = invCount inv name - q := by
  have hk := hasKey_of_invCount_pos inv name h1
  have hmap := invCount_map_sub inv name q hk
  unfold removeItem
  rw [hk]
  simp only [Bool.true_and, decide_eq_true_eq, hq, if_true]
  split
  · rename_i hcond
    rw [invCount_filter_ne]
    omega
  · exact hmap

/-! ### Claim C2: gain_experience -/

/-- Claim C2, counterexample: a fresh level-1 Bulbasaur has threshold 1,
so 100 experience crosses a threshold, yet `gain_experience` returns
`False` (its boolean is the evolution flag), discards the excess
(experience is reset to 0, not carried), and performs exactly one
level-up (level 2) instead of one per crossed threshold. -/
theorem gainExperience_claim_counterexample :
    (mkPokemon "Bulbasaur" 1).experienceToNextLevel = 1 ∧
    (mkPokemon "Bulbasaur" 1).experienceToNextLevel
      ≤ (mkPokemon "Bulbasaur" 1).experience + 100 ∧
    (gainExperience (mkPokemon "Bulbasaur" 1) 100).2 = false ∧
    (gainExperience (mkPokemon "Bulbasaur" 1) 100).1.experience = 0 ∧
    (gainExperience (mkPokemon "Bulbasaur" 1) 100).1.level = 2 := by
  decide

/-- Claim C2 (amended): `gain_experience` adds the amount and performs a
single threshold test, not a loop: below the threshold only the
experience changes; at or above it exactly one level-up runs, which
resets experience to 0 (discarding any excess), recomputes the
threshold and the stats with `current_hp` shifted by the `max_hp`
change; the returned boolean is not "a threshold was crossed" but the
evolution flag of `level_up` (level-up happened and the species'
evolution level is reached). -/
theorem gainExperience_single_step (p : Pokemon) (amount : ℤ)
    (h100 : p.level < 100) :
    (p.experience + amount < p.experienceToNextLevel →
      gainExperience p amount
        = ({ p with experience := p.experience + amount }, false)) ∧
    (p.experienceToNextLevel ≤ p.experience + amount →
      (gainExperience p amount).1.level = p.level + 1 ∧
      (gainExperience p amount).1.experience = 0 ∧
      (gainExperience p amount).1.experienceToNextLevel
        = calculateExpToNextLevel (p.level + 1) ∧
      (gainExperience p amount).1.maxHp
        = calculateStat p.baseStats.hp (p.level + 1) ∧
      (gainExperience p amount).1.currentHp
        = p.currentHp + ((gainExperience p amount).1.maxHp - p.maxHp)) ∧
    ((gainExperience p amount).2 = true ↔
      (p.experienceToNextLevel ≤ p.experience + amount ∧
        ∃ el, p.evolutionLevel = some el ∧ el ≤ p.level + 1)) := by
  have hnot : ¬ (p.level ≥ 100) := by omega
  by_cases hc : p.experienceToNextLevel ≤ p.experience + amount
  · cases hev : p.evolutionLevel with
    | none =>
      refine ⟨fun h => absurd hc (by omega), fun _ => ?_, ?_⟩ <;>
        simp [gainExperience, levelUp, hc, hnot, hev]
    | some el =>
      refine ⟨fun h => absurd hc (by omega), fun _ => ?_, ?_⟩ <;>
        simp [gainExperience, levelUp, hc, hnot, hev]
  · refine ⟨fun _ => ?_, fun h => absurd h hc, ?_⟩ <;>
      simp [gainExperience, hc]

/-- Claim C2, witness for the amended theorem at a level-1 Bulbasaur
gaining 100 experience. -/
theorem gainExperience_single_step_witness :
    (mkPokemon "Bulbasaur" 1).level < 100 ∧
    ((mkPokemon "Bulbasaur" 1).experienceToNextLevel
        ≤ (mkPokemon "Bulbasaur" 1).experience + 100 →
      (gainExperience (mkPokemon "Bulbasaur" 1) 100).1.level
        = (mkPokemon "Bulbasaur" 1).level + 1 ∧
      (gainExperience (mkPokemon "Bulbasaur" 1) 100).1.experience = 0 ∧
      (gainExperience (mkPokemon "Bulbasaur" 1) 100).1.experienceToNextLevel
        = calculateExpToNextLevel ((mkPokemon "Bulbasaur" 1).level + 1) ∧
      (gainExperience (mkPokemon "Bulbasaur" 1) 100).1.maxHp
        = calculateStat (mkPokemon "Bulbasaur" 1).baseStats.hp
            ((mkPokemon "Bulbasaur" 1).level + 1) ∧
      (gainExperience (mkPokemon "Bulbasaur" 1) 100).1.currentHp
        = (mkPokemon "Bulbasaur" 1).currentHp +
            ((gainExperience (mkPokemon "Bulbasaur" 1) 100).1.maxHp
              - (mkPokemon "Bulbasaur" 1).maxHp)) :=
  ⟨by decide,
   (gainExperience_single_step (mkPokemon "Bulbasaur" 1) 100 (by decide)).2.1⟩

/-! ### Claim C3: the post-victory experience and level-up flow -/

/-- The concrete failing input for claim C3. -/
def bugPlayer : Pokemon := mkPokemon "Pikachu" 5

def bugOpponent : Pokemon := { mkPokemon "Rattata" 1 with currentHp := 0 }

def bugState : BattleState :=
  { team := [bugPlayer], activeIdx := 0, opponent := bugOpponent,
    isWild := true, inventory := [("Pokeball", 10), ("Potion", 5)],
    itemsUsed := 0, battleTurn := 3 }

/-- Claim C3: evaluation of the victory block at the failing input. The
defeated level-1 opponent yields exactly 1 experience (the claimed
formula), far below the level-5 threshold of 30, so no level threshold
is crossed; yet the code's unconditional `level_up()` call after
`gain_experience` leaves the player's creature at level 6. -/
theorem victoryBlock_unconditional_levelup :
    calculateExpGain bugPlayer bugOpponent = 1 ∧
    bugPlayer.experienceToNextLevel = 30 ∧
    bugPlayer.experience + calculateExpGain bugPlayer bugOpponent
      < bugPlayer.experienceToNextLevel ∧
    (victoryBlock bugState).team.map Pokemon.level = [6] := by
  decide

/-! ### Claim C5: take_damage -/

/-- Claim C5: `take_damage` clamps `current_hp` at
`max(0, current_hp - amount)`, its boolean is true exactly when the
resulting HP is exactly 0, the result is never negative, and once HP
is 0 a further (non-negative) hit leaves it at 0. -/
theorem takeDamage_clamps (p : Pokemon) (d : ℤ) :
    (takeDamage p d).1.currentHp = max 0 (p.currentHp - d) ∧
    ((takeDamage p d).2 = true ↔ (takeDamage p d).1.currentHp = 0) ∧
    0 ≤ (takeDamage p d).1.currentHp ∧
    (p.currentHp = 0 → 0 ≤ d → (takeDamage p d).1.currentHp = 0) := by
  refine ⟨rfl, by simp [takeDamage], by simp [takeDamage], ?_⟩
  intro h0 hd
  simp [takeDamage]
  omega

/-- Claim C5, witness: a fainted Rattata hit again for 5 stays at 0 HP. -/
theorem takeDamage_clamps_witness :
    ({ mkPokemon "Rattata" 3 with currentHp := 0 } : Pokemon).currentHp = 0 ∧
    (0:ℤ) ≤ 5 ∧
    (takeDamage { mkPokemon "Rattata" 3 with currentHp := 0 } 5).1.currentHp
      = 0 :=
  ⟨rfl, by decide,
   (takeDamage_clamps { mkPokemon "Rattata" 3 with currentHp := 0 } 5).2.2.2
     rfl (by decide)⟩

/-! ### Claim C6: experience gain at the level cap -/

/-- Claim C6, counterexample: at level 100 the accumulated experience is
not left unchanged by `gain_experience` — the amount is still added
(only the level and threshold stay fixed). -/
theorem levelCap_experience_counterexample :
    (mkPokemon "Pikachu" 100).experience = 0 ∧
    (gainExperience (mkPokemon "Pikachu" 100) 5).1.experience = 5 ∧
    (gainExperience (mkPokemon "Pikachu" 100) 5).1.level = 100 := by
  decide

/-- Claim C6 (amended): at level 100, `gain_experience` leaves the level
and the threshold unchanged and reports no level-up, but it does add
the amount to the accumulated experience; and no `gain_experience`
call ever pushes a level that is at most 100 above 100. -/
theorem gainExperience_level_cap (p : Pokemon) (amount : ℤ)
    (h : p.level = 100) :
    (gainExperience p amount).1.level = 100 ∧
    (gainExperience p amount).1.experienceToNextLevel
      = p.experienceToNextLevel ∧
    (gainExperience p amount).1.experience = p.experience + amount ∧
    (gainExperience p amount).2 = false ∧
    (∀ q : Pokemon, ∀ x : ℤ, q.level ≤ 100 →
      (gainExperience q x).1.level ≤ 100) := by
  have hcap : ∀ q : Pokemon, ∀ x : ℤ, q.level ≤ 100 →
      (gainExperience q x).1.level ≤ 100 := by
    intro q x hq
    by_cases hc : q.experienceToNextLevel ≤ q.experience + x
    · by_cases hq100 : q.level ≥ 100
      · simp [gainExperience, levelUp, hc, hq100]
        omega
      · cases hev : q.evolutionLevel <;>
          simp [gainExperience, levelUp, hc, hq100, hev] <;> omega
    · simp [gainExperience, hc]
      omega
  have h100 : ({ p with experience := p.experience + amount } : Pokemon).level
      ≥ 100 := by simp [h]
  by_cases hc : p.experienceToNextLevel ≤ p.experience + amount
  · refine ⟨?_, ?_, ?_, ?_, hcap⟩ <;>
      simp [gainExperience, levelUp, hc, h100, h]
  · refine ⟨?_, ?_, ?_, ?_, hcap⟩ <;>
      simp [gainExperience, hc, h]

/-- Claim C6, witness for the amended theorem at a level-100 Pikachu. -/
theorem gainExperience_level_cap_witness :
    (mkPokemon "Pikachu" 100).level = 100 ∧
    (gainExperience (mkPokemon "Pikachu" 100) 5).1.level = 100 ∧
    (gainExperience (mkPokemon "Pikachu" 100) 5).1.experience
      = (mkPokemon "Pikachu" 100).experience + 5 :=
  ⟨by decide,
   (gainExperience_level_cap (mkPokemon "Pikachu" 100) 5 (by decide)).1,
   (gainExperience_level_cap (mkPokemon "Pikachu" 100) 5 (by decide)).2.2.1⟩

/-! ### Claim C4: the HP invariant -/

/-- Claim C4: for a creature satisfying `0 ≤ current_hp ≤ max_hp` (with
`max_hp` the stat derived from its base HP and level, as every
constructor and mutation establishes), the invariant still holds after
`take_damage` with a non-negative amount, after `heal` with or without
a (non-negative) amount, and after a level-up; and the creature counts
as fainted exactly when `current_hp = 0`. -/
theorem hp_invariant_preserved (p : Pokemon) (d a : ℤ)
    (h0 : 0 ≤ p.currentHp) (h1 : p.currentHp ≤ p.maxHp)
    (hd : 0 ≤ d) (ha : 0 ≤ a)
    (hmax : p.maxHp = calculateStat p.baseStats.hp p.level)
    (hb : 0 ≤ p.baseStats.hp) (hl : 0 ≤ p.level) :
    (0 ≤ (takeDamage p d).1.currentHp ∧
      (takeDamage p d).1.currentHp ≤ (takeDamage p d).1.maxHp) ∧
    (0 ≤ (heal p none).currentHp ∧
      (heal p none).currentHp ≤ (heal p none).maxHp) ∧
    (0 ≤ (heal p (some a)).currentHp ∧
      (heal p (some a)).currentHp ≤ (heal p (some a)).maxHp) ∧
    (0 ≤ (levelUp p).1.currentHp ∧
      (levelUp p).1.currentHp ≤ (levelUp p).1.maxHp) ∧
    (isFainted p = true ↔ p.currentHp = 0) := by
  have hmono := calculateStat_mono p.baseStats.hp p.level hb
  obtain ⟨sp, lv, ex, th, bs, mh, ch, ak, df, sa, sd, spe, ty, mv, sc, st, ev⟩ := p
  simp only at h0 h1 hmax hb hl hmono
  refine ⟨⟨?_, ?_⟩, ⟨?_, ?_⟩, ?_, ?_, ?_⟩
  · simp [takeDamage]
  · simp [takeDamage]; omega
  · simp [heal]; omega
  · simp [heal]
  · simp only [heal]; split <;> simp <;> omega
  · by_cases hcap : lv ≥ 100
    · simp [levelUp, hcap]; omega
    · cases ev <;> simp [levelUp, hcap] <;> omega
  · simp [isFainted]; omega

/-- Claim C4, witness at a freshly constructed level-5 Pikachu taking 3
damage and healing 20. -/
theorem hp_invariant_preserved_witness :
    (0 ≤ (mkPokemon "Pikachu" 5).currentHp ∧
      (mkPokemon "Pikachu" 5).currentHp ≤ (mkPokemon "Pikachu" 5).maxHp) ∧
    (0 ≤ (takeDamage (mkPokemon "Pikachu" 5) 3).1.currentHp ∧
      (takeDamage (mkPokemon "Pikachu" 5) 3).1.currentHp
        ≤ (takeDamage (mkPokemon "Pikachu" 5) 3).1.maxHp) ∧
    (0 ≤ (heal (mkPokemon "Pikachu" 5) (some 20)).currentHp ∧
      (heal (mkPokemon "Pikachu" 5) (some 20)).currentHp
        ≤ (heal (mkPokemon "Pikachu" 5) (some 20)).maxHp) ∧
    (0 ≤ (levelUp (mkPokemon "Pikachu" 5)).1.currentHp ∧
      (levelUp (mkPokemon "Pikachu" 5)).1.currentHp
        ≤ (levelUp (mkPokemon "Pikachu" 5)).1.maxHp) ∧
    (isFainted (mkPokemon "Pikachu" 5) = true
      ↔ (mkPokemon "Pikachu" 5).currentHp = 0) :=
  have h := hp_invariant_preserved (mkPokemon "Pikachu" 5) 3 20
    (by decide) (by decide) (by decide) (by decide) (by decide)
    (by decide) (by decide)
  ⟨⟨by decide, by decide⟩, h.1, h.2.2.1, h.2.2.2.1, h.2.2.2.2⟩

/-! ### Claim C9: zero-power moves -/

/-- Claim C9: a zero-power move deals exactly 0 damage, consumes no
random draw (the tape is returned untouched, the early return happens
before the uniform factor), and feeding that 0 damage into
`take_damage` leaves the (non-negatively charged) defender completely
unchanged. -/
theorem zero_power_move_is_noop (atk dfn : Pokemon) (mv : Move)
    (rng : List ℚ) (hpow : mv.power = 0) (hhp : 0 ≤ dfn.currentHp) :
    (calculateDamage atk mv dfn rng).1 = 0 ∧
    (calculateDamage atk mv dfn rng).2 = rng ∧
    (takeDamage dfn (calculateDamage atk mv dfn rng).1).1 = dfn := by
  refine ⟨by simp [calculateDamage, hpow], by simp [calculateDamage, hpow], ?_⟩
  obtain ⟨sp, lv, ex, th, bs, mh, ch, ak, df, sa, sd, spe, ty, mv2, sc, st, ev⟩ := dfn
  simp only at hhp
  simp [calculateDamage, hpow, takeDamage]
  omega

/-- Claim C9, witness: Growl (power 0) used by a Bulbasaur against a
Rattata with a non-empty random tape. -/
theorem zero_power_move_is_noop_witness :
    moveGrowl.power = 0 ∧
    (0:ℤ) ≤ (mkPokemon "Rattata" 3).currentHp ∧
    (calculateDamage (mkPokemon "Bulbasaur" 5) moveGrowl
        (mkPokemon "Rattata" 3) [9/10]).1 = 0 ∧
    (calculateDamage (mkPokemon "Bulbasaur" 5) moveGrowl
        (mkPokemon "Rattata" 3) [9/10]).2 = [9/10] ∧
    (takeDamage (mkPokemon "Rattata" 3)
        (calculateDamage (mkPokemon "Bulbasaur" 5) moveGrowl
          (mkPokemon "Rattata" 3) [9/10]).1).1 = mkPokemon "Rattata" 3 :=
  have h := zero_power_move_is_noop (mkPokemon "Bulbasaur" 5)
    (mkPokemon "Rattata" 3) moveGrowl [9/10] rfl (by decide)
  ⟨rfl, by decide, h.1, h.2.1, h.2.2⟩

/-! ### Claims C8 and C10: the capture flows -/

lemma addPokemon_inventory (t : Trainer) (p : Pokemon) (c : Bool) :
    ((addPokemon t p c).1).inventory = t.inventory := by
  cases c <;> simp [addPokemon] <;> split <;> rfl

/-- Claim C8: `Trainer.catch_pokemon` (given the ball is in stock)
succeeds exactly when the single uniform draw is below
`min(1, base_rate·ball·hp_factor·status / 255)` with
`hp_factor = (3·max_hp − 2·current_hp)/(3·max_hp)` and the status bonus
2 for sleep/freeze, 1.5 for paralyze/burn/poison, else 1; and exactly
one ball is consumed whatever the outcome. -/
theorem catchPokemon_formula (t : Trainer) (wild : Pokemon) (ball : String)
    (r : ℚ) (hball : 1 ≤ invCount t.inventory ball) :
    ((catchPokemon t wild ball r).2 = true ↔ r < catchProbability wild ball) ∧
    invCount (catchPokemon t wild ball r).1.inventory ball
      = invCount t.inventory ball - 1 := by
  have hasI : hasItem t.inventory ball = true := by
    simp only [hasItem, decide_eq_true_eq]; exact hball
  have hcnt := invCount_removeItem t.inventory ball 1 (by omega) (by omega)
  by_cases hr : r < catchProbability wild ball
  · have heq : catchPokemon t wild ball r
        = ((addPokemon { t with inventory := (removeItem t.inventory ball 1).1 }
            (heal wild none) true).1, true) := by
      simp [catchPokemon, hasI, hr]
    rw [heq]
    simp [hr, addPokemon_inventory, hcnt]
  · have heq : catchPokemon t wild ball r
        = ({ t with inventory := (removeItem t.inventory ball 1).1 }, false) := by
      simp [catchPokemon, hasI, hr]
    rw [heq]
    simp [hr, hcnt]

/-- The worked trainer and wild creature used by the capture
witnesses. -/
def wTrainer : Trainer :=
  { pokemonTeam := [mkPokemon "Charmander" 5], pokemonBox := [],
    maxTeamSize := 6, inventory := [("Pokeball", 10), ("Potion", 5)],
    pokedexSeen := ["Charmander"], pokedexCaught := [],
    statsPokemonCaught := 0, statsItemsUsed := 0 }

def wWild : Pokemon := { mkPokemon "Rattata" 3 with currentHp := 3 }

/-- Claim C8, witness: one Pokeball is in stock, a draw of 0 catches,
and the ball count drops from 10 to 9. -/
theorem catchPokemon_formula_witness :
    1 ≤ invCount wTrainer.inventory "Pokeball" ∧
    ((catchPokemon wTrainer wWild "Pokeball" 0).2 = true ↔
      (0:ℚ) < catchProbability wWild "Pokeball") ∧
    invCount (catchPokemon wTrainer wWild "Pokeball" 0).1.inventory "Pokeball"
      = invCount wTrainer.inventory "Pokeball" - 1 :=
  ⟨by decide,
   (catchPokemon_formula wTrainer wWild "Pokeball" 0 (by decide)).1,
   (catchPokemon_formula wTrainer wWild "Pokeball" 0 (by decide)).2⟩

/-- Claim C10: in the engine's post-victory capture flow (player
agreeing, a pokeball in stock), the wild creature is caught exactly
when the engine's own `calculate_catch_rate` draw and the trainer's
formula draw both succeed, and exactly one ball of the first
pokeball-type stack is consumed on every attempt, whichever draw
fails. -/
theorem engineAttemptCatch_two_draws (t : Trainer) (wild : Pokemon)
    (r1 r2 : ℚ) (ball : String) (q : ℤ) (rest : Inventory)
    (hfirst : itemsByType t.inventory "pokeball" = (ball, q) :: rest)
    (hq : 1 ≤ invCount t.inventory ball) :
    ((engineAttemptCatch t wild true r1 r2).2 = true ↔
      (r1 < calculateCatchRate wild ∧ r2 < catchProbability wild ball)) ∧
    invCount (engineAttemptCatch t wild true r1 r2).1.inventory ball
      = invCount t.inventory ball - 1 := by
  have hasI : hasItem t.inventory ball = true := by
    simp only [hasItem, decide_eq_true_eq]; exact hq
  have hcnt := invCount_removeItem t.inventory ball 1 (by omega) (by omega)
  unfold engineAttemptCatch
  rw [hfirst]
  by_cases hr1 : r1 < calculateCatchRate wild
  · by_cases hr2 : r2 < catchProbability wild ball
    · have heq : catchPokemon t wild ball r2
          = ((addPokemon { t with inventory := (removeItem t.inventory ball 1).1 }
              (heal wild none) true).1, true) := by
        simp [catchPokemon, hasI, hr2]
      simp [hr1, hr2, heq, addPokemon_inventory, hcnt]
    · have heq : catchPokemon t wild ball r2
          = ({ t with inventory := (removeItem t.inventory ball 1).1 }, false) := by
        simp [catchPokemon, hasI, hr2]
      simp [hr1, hr2, heq, hcnt]
  · simp [hr1, hcnt]

/-- Claim C10, witness: with the starting inventory the first pokeball
stack is the plain Pokeball, draws of 0 on both gates catch the wild
creature, and the ball count drops from 10 to 9. -/
theorem engineAttemptCatch_two_draws_witness :
    itemsByType wTrainer.inventory "pokeball" = [("Pokeball", 10)] ∧
    1 ≤ invCount wTrainer.inventory "Pokeball" ∧
    ((engineAttemptCatch wTrainer wWild true 0 0).2 = true ↔
      ((0:ℚ) < calculateCatchRate wWild ∧
        (0:ℚ) < catchProbability wWild "Pokeball")) ∧
    invCount (engineAttemptCatch wTrainer wWild true 0 0).1.inventory "Pokeball"
      = invCount wTrainer.inventory "Pokeball" - 1 :=
  ⟨by decide, by decide,
   (engineAttemptCatch_two_draws wTrainer wWild 0 0 "Pokeball" 10 []
     (by decide) (by decide)).1,
   (engineAttemptCatch_two_draws wTrainer wWild 0 0 "Pokeball" 10 []
     (by decide) (by decide)).2⟩

/-! ### Claim C1: no accuracy check in the battle loop -/

/-- A damaging move with imperfect accuracy, as the `Move` dataclass
admits (the player Fight action is quantified over every move). -/
def cexMove : Move := ⟨"Test Slam", .normal, 40, 50, 10, 10⟩

def cexAtk : Pokemon :=
  { species := "Charmander", level := 5, experience := 0,
    experienceToNextLevel := 30, baseStats := ⟨39, 52, 43, 60, 50, 65⟩,
    maxHp := 9, currentHp := 9, attack := 50, defense := 10,
    specialAttack := 11, specialDefense := 10, speed := 12,
    types := [.fire], moves := [cexMove], statusCondition := none,
    statusTurns := 0, evolutionLevel := some 16 }

def cexDef : Pokemon :=
  { species := "Rattata", level := 5, experience := 0,
    experienceToNextLevel := 30, baseStats := ⟨30, 56, 35, 25, 35, 72⟩,
    maxHp := 30, currentHp := 30, attack := 11, defense := 50,
    specialAttack := 8, specialDefense := 9, speed := 12,
    types := [.normal], moves := [moveTackle, moveQuickAttack],
    statusCondition := none, statusTurns := 0, evolutionLevel := some 20 }

/-- Claim C1, counterexample: with a 50-accuracy move and the uniform
draw 0.9 the claimed semantics (`specFightAction`, the accuracy gate of
the spec) misses and leaves the defender at 30 HP, but the code
(`fightAction`) performs no accuracy check at all: it deals 4 damage
and reduces the defender to 26 HP. -/
theorem fight_accuracy_check_counterexample :
    cexMove.accuracy = 50 ∧
    ¬((9:ℚ)/10 < (cexMove.accuracy : ℚ) / 100) ∧
    (specFightAction cexAtk cexDef (some 1) [9/10]).2.2.1
      = FightMessage.missed ∧
    (specFightAction cexAtk cexDef (some 1) [9/10]).2.1.currentHp = 30 ∧
    (fightAction cexAtk cexDef (some 1) [9/10]).2.2.1
      = FightMessage.dealtDamage 4 ∧
    (fightAction cexAtk cexDef (some 1) [9/10]).2.1.currentHp = 26 := by
  refine ⟨rfl, by norm_num [cexMove], ?_, ?_, ?_, ?_⟩ <;>
    norm_num [specFightAction, fightAction, useMove, calculateDamage,
      typeEffectivenessAll, typeEffectiveness, pyInt, takeDamage,
      cexAtk, cexDef, cexMove,
      show ¬ (PokemonType.normal = PokemonType.fire) from by decide]

/-- Claim C1 (amended): neither turn consults `move.accuracy`. The
player Fight action with a valid move that has PP simply spends the PP,
computes the damage (the only uniform draw) and applies it, reporting
"missed" exactly when the damage is not positive; the damage formula is
invariant under changing the move's accuracy; and the opponent's turn
likewise applies the computed damage directly. -/
theorem battle_no_accuracy_check (p opp : Pokemon) (i : ℕ) (mv : Move)
    (rng : List ℚ) (a : ℤ) (j : ℕ) (omv : Move)
    (hmv : p.moves[i]? = some mv) (hpp : 0 < mv.pp)
    (homv : opp.moves[j]? = some omv) :
    (fightAction p opp (some (i + 1)) rng
      = (let mv' : Move := { mv with pp := mv.pp - 1 }
         let p' : Pokemon := { p with moves := p.moves.set i mv' }
         (p', (takeDamage opp (calculateDamage p' mv' opp rng).1).1,
          (if (calculateDamage p' mv' opp rng).1 > 0
            then FightMessage.dealtDamage (calculateDamage p' mv' opp rng).1
            else FightMessage.missed),
          (calculateDamage p' mv' opp rng).2))) ∧
    (calculateDamage p { mv with accuracy := a } opp rng
      = calculateDamage p mv opp rng) ∧
    (opponentTurn opp p j rng
      = ((takeDamage p (calculateDamage opp omv p rng).1).1,
         (calculateDamage opp omv p rng).2)) := by
  have hlt : i < p.moves.length := by
    obtain ⟨hl, -⟩ := List.getElem?_eq_some.mp hmv
    exact hl
  refine ⟨?_, rfl, ?_⟩
  · have h1 : ¬ (i + 1 = 0 ∨ p.moves.length < i + 1) := by omega
    simp only [fightAction, h1, if_false, Nat.add_sub_cancel, hmv, useMove,
      hpp, if_pos]
    split <;> rename_i hd <;> simp [hd]
  · simp only [opponentTurn, homv]

/-- Claim C1, witness for the amended theorem: a level-5 Charmander
using Tackle against a Rattata, plus accuracy-invariance of the damage
formula at accuracy 77. -/
theorem battle_no_accuracy_check_witness :
    (mkPokemon "Charmander" 5).moves[0]? = some moveTackle ∧
    0 < moveTackle.pp ∧
    (mkPokemon "Rattata" 3).moves[0]? = some moveTackle ∧
    (calculateDamage (mkPokemon "Charmander" 5)
        { moveTackle with accuracy := 77 } (mkPokemon "Rattata" 3) []
      = calculateDamage (mkPokemon "Charmander" 5) moveTackle
          (mkPokemon "Rattata" 3) []) :=
  ⟨by decide, by decide, by decide,
   (battle_no_accuracy_check (mkPokemon "Charmander" 5)
     (mkPokemon "Rattata" 3) 0 moveTackle [] 77 0 moveTackle
     (by decide) (by decide) (by decide)).2.1⟩

/-! ### Claim C7: invalid selections in the battle loop -/

/-- The invalid or unavailable battle-menu selections enumerated by
claim C7: a falsy or out-of-range move choice, a chosen move with no PP
left, an empty healing-item list (or a cancelled item menu), and a
disallowed or out-of-range switch target (no other team member, the
active slot itself, or a fainted team member). -/
inductive InvalidSelection : BattleState → BattleChoice → Prop where
  | fightNone (st : BattleState) : InvalidSelection st (.fight none)
  | fightZero (st : BattleState) : InvalidSelection st (.fight (some 0))
  | fightRange (st : BattleState) (i : ℕ) (p : Pokemon)
      (hp : st.team[st.activeIdx]? = some p) (h : p.moves.length < i) :
      InvalidSelection st (.fight (some i))
  | fightNoPP (st : BattleState) (i : ℕ) (p : Pokemon) (mv : Move)
      (hp : st.team[st.activeIdx]? = some p) (h0 : i ≠ 0)
      (hle : i ≤ p.moves.length) (hmv : p.moves[i - 1]? = some mv)
      (hpp : mv.pp ≤ 0) : InvalidSelection st (.fight (some i))
  | itemsEmpty (st : BattleState) (ic : Option String)
      (h : itemsByType st.inventory "healing" = []) :
      InvalidSelection st (.items ic)
  | itemsNone (st : BattleState) : InvalidSelection st (.items none)
  | switchAlone (st : BattleState) (pc : Option ℕ)
      (h : st.team.length ≤ 1) : InvalidSelection st (.switch pc)
  | switchNone (st : BattleState) : InvalidSelection st (.switch none)
  | switchZero (st : BattleState) : InvalidSelection st (.switch (some 0))
  | switchRange (st : BattleState) (i : ℕ) (h : st.team.length < i) :
      InvalidSelection st (.switch (some i))
  | switchBad (st : BattleState) (i : ℕ) (np : Pokemon) (h0 : i ≠ 0)
      (hle : i ≤ st.team.length) (hnp : st.team[i - 1]? = some np)
      (hbad : i - 1 = st.activeIdx ∨ isFainted np = true) :
      InvalidSelection st (.switch (some i))

lemma fightBranch_none (s : BattleState) (fs : Option ℕ) (oi : ℕ)
    (rng : List ℚ) :
    fightBranch s none fs oi rng = (.cont s, rng) := by
  cases hgp : s.team[s.activeIdx]? <;>
    simp [fightBranch, fightAction, hgp]

lemma fightBranch_zero (s : BattleState) (fs : Option ℕ) (oi : ℕ)
    (rng : List ℚ) :
    fightBranch s (some 0) fs oi rng = (.cont s, rng) := by
  cases hgp : s.team[s.activeIdx]? <;>
    simp [fightBranch, fightAction, hgp]

lemma fightBranch_range (s : BattleState) (i : ℕ) (p : Pokemon)
    (fs : Option ℕ) (oi : ℕ) (rng : List ℚ)
    (hp : s.team[s.activeIdx]? = some p) (h : p.moves.length < i) :
    fightBranch s (some i) fs oi rng = (.cont s, rng) := by
  simp [fightBranch, fightAction, hp, h]

lemma fightBranch_noPP (s : BattleState) (i : ℕ) (p : Pokemon) (mv : Move)
    (fs : Option ℕ) (oi : ℕ) (rng : List ℚ)
    (hp : s.team[s.activeIdx]? = some p) (h0 : i ≠ 0)
    (hle : i ≤ p.moves.length) (hmv : p.moves[i - 1]? = some mv)
    (hpp : mv.pp ≤ 0) :
    fightBranch s (some i) fs oi rng = (.cont s, rng) := by
  have hguard : ¬ (i = 0 ∨ p.moves.length < i) := by omega
  have hnopp : ¬ (mv.pp > 0) := by omega
  simp [fightBranch, fightAction, hp, hguard, hmv, useMove, hnopp]

lemma itemsBranch_empty (s : BattleState) (ic : Option String)
    (fs : Option ℕ) (oi : ℕ) (rng : List ℚ)
    (h : itemsByType s.inventory "healing" = []) :
    itemsBranch s ic fs oi rng = (.cont s, rng) := by
  simp [itemsBranch, h]

lemma itemsBranch_noneChoice (s : BattleState) (fs : Option ℕ) (oi : ℕ)
    (rng : List ℚ) :
    itemsBranch s none fs oi rng = (.cont s, rng) := by
  cases hit : itemsByType s.inventory "healing" <;>
    simp [itemsBranch, hit]

lemma switchBranch_alone (s : BattleState) (pc : Option ℕ)
    (fs : Option ℕ) (oi : ℕ) (rng : List ℚ) (h : s.team.length ≤ 1) :
    switchBranch s pc fs oi rng = (.cont s, rng) := by
  simp [switchBranch, h]

lemma switchBranch_noneChoice (s : BattleState) (fs : Option ℕ) (oi : ℕ)
    (rng : List ℚ) :
    switchBranch s none fs oi rng = (.cont s, rng) := by
  by_cases h : s.team.length ≤ 1 <;> simp [switchBranch, h]

lemma switchBranch_zero (s : BattleState) (fs : Option ℕ) (oi : ℕ)
    (rng : List ℚ) :
    switchBranch s (some 0) fs oi rng = (.cont s, rng) := by
  by_cases h : s.team.length ≤ 1 <;> simp [switchBranch, h]

lemma switchBranch_range (s : BattleState) (i : ℕ) (fs : Option ℕ)
    (oi : ℕ) (rng : List ℚ) (h : s.team.length < i) :
    switchBranch s (some i) fs oi rng = (.cont s, rng) := by
  by_cases h1 : s.team.length ≤ 1 <;> simp [switchBranch, h1, h]

lemma switchBranch_bad (s : BattleState) (i : ℕ) (np : Pokemon)
    (fs : Option ℕ) (oi : ℕ) (rng : List ℚ) (h0 : i ≠ 0)
    (hle : i ≤ s.team.length) (hnp : s.team[i - 1]? = some np)
    (hbad : i - 1 = s.activeIdx ∨ isFainted np = true) :
    switchBranch s (some i) fs oi rng = (.cont s, rng) := by
  by_cases h1 : s.team.length ≤ 1
  · simp [switchBranch, h1]
  · have hguard : ¬ (i = 0 ∨ s.team.length < i) := by omega
    have hnot : ¬ (i - 1 ≠ s.activeIdx ∧ ¬ (isFainted np = true)) := by
      rcases hbad with hb | hb
      · intro hc; exact hc.1 hb
      · intro hc; exact hc.2 hb
    simp only [switchBranch, h1, if_false, hguard, hnp]
    rw [if_neg hnot]

/-- Claim C7 (amended): an invalid or unavailable selection is
recovered locally with a re-prompt (`continue`): no random draw is
consumed and the battle state is unchanged — HP, PP, roster and
inventory included — except that the turn counter has already been
incremented at the top of the iteration, so it does advance for the
failed attempt (and counts toward the 100-turn draw limit). -/
theorem invalid_selection_reprompts (st : BattleState) (c : BattleChoice)
    (fs : Option ℕ) (oi : ℕ) (rng : List ℚ)
    (h : InvalidSelection st c) :
    battleIteration st c fs oi rng
      = (BattleOutcome.cont { st with battleTurn := st.battleTurn + 1 },
         rng) := by
  cases h with
  | fightNone => exact fightBranch_none _ fs oi rng
  | fightZero => exact fightBranch_zero _ fs oi rng
  | fightRange i p hp h => exact fightBranch_range _ i p fs oi rng hp h
  | fightNoPP i p mv hp h0 hle hmv hpp =>
    exact fightBranch_noPP _ i p mv fs oi rng hp h0 hle hmv hpp
  | itemsEmpty ic h => exact itemsBranch_empty _ ic fs oi rng h
  | itemsNone => exact itemsBranch_noneChoice _ fs oi rng
  | switchAlone pc h => exact switchBranch_alone _ pc fs oi rng h
  | switchNone => exact switchBranch_noneChoice _ fs oi rng
  | switchZero => exact switchBranch_zero _ fs oi rng
  | switchRange i h => exact switchBranch_range _ i fs oi rng h
  | switchBad i np h0 hle hnp hbad =>
    exact switchBranch_bad _ i np fs oi rng h0 hle hnp hbad

/-- The concrete battle state for the claim C7 counterexample. -/
def trialState : BattleState :=
  { team := [mkPokemon "Pikachu" 5, mkPokemon "Rattata" 3], activeIdx := 0,
    opponent := mkPokemon "Caterpie" 3, isWild := true,
    inventory := [("Pokeball", 10), ("Potion", 5)], itemsUsed := 0,
    battleTurn := 3 }

/-- Claim C7, counterexample: an out-of-range move choice (5 of 2) is
re-prompted with no state change, but the battle turn counter does
advance (from 3 to 4) because it is incremented at the top of every
loop iteration, before the selection is validated. -/
theorem battle_turn_counter_counterexample :
    trialState.battleTurn = 3 ∧
    (battleIteration trialState (BattleChoice.fight (some 5)) none 0 []).1
      = BattleOutcome.cont { trialState with battleTurn := 4 } := by
  decide

/-- The concrete no-PP battle state for the claim C7 witness. -/
def noPPState : BattleState :=
  { team := [{ mkPokemon "Pikachu" 5 with
      moves := [{ moveThunderShock with pp := 0 }] }],
    activeIdx := 0, opponent := mkPokemon "Caterpie" 3, isWild := true,
    inventory := [("Pokeball", 10), ("Potion", 5)], itemsUsed := 0,
    battleTurn := 7 }

/-- Claim C7, witness for the amended theorem: choosing the only move
when it has no PP left re-prompts, leaving everything but the turn
counter unchanged. -/
theorem invalid_selection_reprompts_witness :
    battleIteration noPPState (BattleChoice.fight (some 1)) none 0 []
      = (BattleOutcome.cont { noPPState with
          battleTurn := noPPState.battleTurn + 1 }, []) :=
  invalid_selection_reprompts noPPState (BattleChoice.fight (some 1))
    none 0 []
    (InvalidSelection.fightNoPP noPPState 1
      ({ mkPokemon "Pikachu" 5 with
        moves := [{ moveThunderShock with pp := 0 }] })
      ({ moveThunderShock with pp := 0 })
      (by decide) (by decide) (by decide) (by decide) (by decide))

end PokemonGame
